import Mathlib

/-!
Verification of the PrintZest authentication core (src/main.py, src/schemas.py).

Shallow embedding: the MongoDB document store becomes an explicit `Store`
value threaded through each endpoint; `datetime` becomes a `Nat` timestamp in
seconds (so "+ 5 minutes" is "+ 300"); MongoDB ObjectIds become `Nat` ids
drawn from a counter in the store; `find_one` is a first-match scan in
insertion order; the random draws of `secrets.randbelow(1000000)` and
`secrets.token_urlsafe(24)` become explicit `rand`/`tok` parameters.
FastAPI's `HTTPException` becomes an `Except` error value; each endpoint
returns the error or result together with the post-call store.
-/

namespace PrintZest

/-- `User` collection document (schemas.py `User`; fields used by main.py). -/
structure User where
  id : Nat
  name : String
  email : Option String
  phone : String
  role : String
  is_active : Bool
deriving DecidableEq, Repr

/-- `OTP` collection document (schemas.py `OTP`): phone, code, expiry. -/
structure Otp where
  phone : String
  code : String
  expires_at : Nat
deriving DecidableEq, Repr

/-- `Session` collection document (schemas.py `Session`). -/
structure Session where
  user_id : Nat
  token : String
  created_at : Nat
deriving DecidableEq, Repr

/-- The document store: the three collections touched by the auth core, in
insertion order, plus the counter supplying fresh document ids. -/
structure Store where
  users : List User
  otps : List Otp
  sessions : List Session
  nextId : Nat
deriving DecidableEq, Repr

/-- The empty store. -/
def Store.empty : Store := ⟨[], [], [], 0⟩

/-- The client-visible failures raised by the auth endpoints (main.py raises
them as `HTTPException`s with the corresponding detail strings). -/
inductive ApiError where
  | invalidPhoneFormat
  | invalidOrExpiredCode
  | userNotFound
  | missingToken
  | invalidToken
  | forbidden
  | invalidCredentials
deriving DecidableEq, Repr

/-- HTTP status code attached to each `HTTPException` in main.py. -/
def statusOf : ApiError → Nat
  | .invalidPhoneFormat => 400
  | .invalidOrExpiredCode => 400
  | .userNotFound => 404
  | .missingToken => 401
  | .invalidToken => 401
  | .forbidden => 403
  | .invalidCredentials => 401

/-- `validate_phone` (main.py line 25-31): the regex `^\+?\d{10,14}$` —
an optional leading `+` followed by 10 to 14 digits, anchored at both ends
(modelled over ASCII digits). Returns `true` iff the phone is accepted. -/
def validPhone (phone : String) : Bool :=
  let ds := match phone.data with
    | '+' :: rest => rest
    | cs => cs
  decide (10 ≤ ds.length) && decide (ds.length ≤ 14) && ds.all Char.isDigit

/-- The code format `f"{n:06d}"` of main.py line 112: decimal, zero-padded
to (at least) six characters. -/
def pad6 (n : Nat) : String :=
  let s := toString n
  String.mk (List.replicate (6 - s.length) '0' ++ s.data)

/-- `db["user"].find_one({"phone": phone})`: first user with that phone. -/
def findUserByPhone (st : Store) (phone : String) : Option User :=
  st.users.find? fun u => u.phone == phone

/-- `db["user"].find_one({"_id": ObjectId(uid)})`: first user with that id. -/
def findUserById (st : Store) (uid : Nat) : Option User :=
  st.users.find? fun u => u.id == uid

/-- `db["user"].find_one({"email": email, "role": "admin"})`. -/
def findAdminByEmail (st : Store) (email : String) : Option User :=
  st.users.find? fun u => u.email == some email && u.role == "admin"

/-- `db["otp"].find_one({"phone": phone, "code": code})`. -/
def findOtp (st : Store) (phone code : String) : Option Otp :=
  st.otps.find? fun o => o.phone == phone && o.code == code

/-- `db["session"].find_one({"token": tok})`. -/
def findSessionByToken (st : Store) (tok : String) : Option Session :=
  st.sessions.find? fun s => s.token == tok

/-- Session Manager "mint" as inlined at main.py lines 129-130 and 150-151:
`token = secrets.token_urlsafe(24)` (the random token is the `tok`
parameter here) followed by
`create_document("session", {"user_id": ..., "token": token, "created_at": now})`. -/
def mint (st : Store) (userId : Nat) (tok : String) (now : Nat) : Store :=
  { st with sessions := st.sessions ++ [({ user_id := userId, token := tok, created_at := now } : Session)] }

/-- Session Manager "resolve" as inlined at main.py lines 87-91 (and again at
183-188): absent or empty bearer token fails with the missing-token error;
a token no session holds fails with the invalid-token error; otherwise the
session's user id is returned. -/
def resolve (st : Store) (token : Option String) : Except ApiError Nat :=
  match token with
  | none => Except.error ApiError.missingToken
  | some tok =>
    if tok == "" then Except.error ApiError.missingToken
    else
      match findSessionByToken st tok with
      | none => Except.error ApiError.invalidToken
      | some s => Except.ok s.user_id

/-- `require_admin` (main.py lines 86-95): resolve the bearer token to a
session (401 on absence or unknown token), load the user by the session's
user id, fail 403 unless the user exists and has role `"admin"`, and return
the admin user's id. -/
def require_admin (st : Store) (authorization : Option String) : Except ApiError Nat :=
  match authorization with
  | none => Except.error ApiError.missingToken
  | some tok =>
    if tok == "" then Except.error ApiError.missingToken
    else
      match findSessionByToken st tok with
      | none => Except.error ApiError.invalidToken
      | some s =>
        match findUserById st s.user_id with
        | none => Except.error ApiError.forbidden
        | some u =>
          if u.role == "admin" then Except.ok u.id
          else Except.error ApiError.forbidden

/-- `request_otp` (main.py lines 99-117): validate the phone; create a
customer user for the phone if none exists (name from the payload); draw a
code (`rand` is the `secrets.randbelow(1000000)` draw, formatted by `pad6`);
delete every OTP document for the phone; insert the new OTP with expiry
`now + 300` seconds; return the code (`demo_code`). -/
def request_otp (st : Store) (name phone : String) (rand now : Nat) :
    Except ApiError String × Store :=
  if validPhone phone then
    let newCustomer : User :=
      { id := st.nextId, name := name, email := none,
        phone := phone, role := "customer", is_active := true }
    let st1 : Store :=
      match findUserByPhone st phone with
      | some _ => st
      | none => { st with users := st.users ++ [newCustomer], nextId := st.nextId + 1 }
    let code := pad6 (rand % 1000000)
    let newOtp : Otp := { phone := phone, code := code, expires_at := now + 300 }
    let st2 := { st1 with
      otps := (st1.otps.filter fun o => !(o.phone == phone)) ++ [newOtp] }
    (Except.ok code, st2)
  else (Except.error ApiError.invalidPhoneFormat, st)

/-- `verify_otp` (main.py lines 120-132): validate the phone; look up the OTP
document matching (phone, code) and fail with the invalid-or-expired error if
none matches or its expiry has passed (`expires_at < now`, strict); load the
user by phone and fail 404 if absent; mint a session (`tok` is the random
token draw); delete every OTP document for the phone; return the token and
the user. -/
def verify_otp (st : Store) (phone code tok : String) (now : Nat) :
    Except ApiError (String × User) × Store :=
  if validPhone phone then
    match findOtp st phone code with
    | none => (Except.error ApiError.invalidOrExpiredCode, st)
    | some o =>
      if o.expires_at < now then (Except.error ApiError.invalidOrExpiredCode, st)
      else
        match findUserByPhone st phone with
        | none => (Except.error ApiError.userNotFound, st)
        | some u =>
          let st1 := mint st u.id tok now
          let st2 := { st1 with otps := st1.otps.filter fun o => !(o.phone == phone) }
          (Except.ok (tok, u), st2)
  else (Except.error ApiError.invalidPhoneFormat, st)

/-- `admin_login` (main.py lines 136-152): look up an admin user by email; if
none exists, password `"admin123"` bootstraps a new admin user (name
`"Admin"`, the supplied email, placeholder phone `"+10000000000"`, role
`"admin"`, active) and any other password fails with invalid credentials; if
one exists, the password is compared to the same constant. On success a
session is minted (`tok` is the random token draw) and the token returned. -/
def admin_login (st : Store) (email password tok : String) (now : Nat) :
    Except ApiError String × Store :=
  match findAdminByEmail st email with
  | none =>
    if password == "admin123" then
      let newAdmin : User := { id := st.nextId, name := "Admin", email := some email,
                               phone := "+10000000000", role := "admin", is_active := true }
      let st1 := { st with users := st.users ++ [newAdmin], nextId := st.nextId + 1 }
      (Except.ok tok, mint st1 newAdmin.id tok now)
    else (Except.error ApiError.invalidCredentials, st)
  | some admin =>
    if password == "admin123" then (Except.ok tok, mint st admin.id tok now)
    else (Except.error ApiError.invalidCredentials, st)

/-- Number of OTP documents stored for a phone. -/
def otpCount (st : Store) (phone : String) : Nat :=
  (st.otps.filter fun o => o.phone == phone).length

/-- The §3 invariant: at most one live code per phone. -/
def atMostOneCode (st : Store) : Prop :=
  ∀ phone, otpCount st phone ≤ 1

/-- One call to a state-modifying auth operation (`require_admin` is
read-only: it returns no store). -/
inductive Step : Store → Store → Prop where
  | issue (st : Store) (name phone : String) (rand now : Nat) :
      Step st (request_otp st name phone rand now).2
  | verify (st : Store) (phone code tok : String) (now : Nat) :
      Step st (verify_otp st phone code tok now).2
  | adminLogin (st : Store) (email password tok : String) (now : Nat) :
      Step st (admin_login st email password tok now).2

/-- Reachability by any sequence of auth operations. -/
def Reachable : Store → Store → Prop :=
  Relation.ReflTransGen Step

/-! ### Helper lemmas about the list-backed collections -/

/-- After a delete-all-for-phone, no OTP lookup for that phone can match. -/
lemma find?_otp_filter (l : List Otp) (phone code : String) :
    List.find? (fun o => o.phone == phone && o.code == code)
      (List.filter (fun o => !(o.phone == phone)) l) = none := by
  rw [List.find?_eq_none]
  intro x hx
  rcases List.mem_filter.mp hx with ⟨-, hne⟩
  simp only [Bool.not_eq_true', beq_eq_false_iff_ne, ne_eq] at hne
  simp [hne]

/-- Filtering for a phone after a delete-all-for-phone yields nothing. -/
lemma filter_otp_filter (l : List Otp) (phone : String) :
    List.filter (fun o => o.phone == phone)
      (List.filter (fun o => !(o.phone == phone)) l) = [] := by
  rw [List.filter_eq_nil_iff]
  intro x hx
  rcases List.mem_filter.mp hx with ⟨-, hne⟩
  simp only [Bool.not_eq_true', beq_eq_false_iff_ne, ne_eq] at hne
  simp [hne]

/-- Filtering for a different phone ignores a delete-all for this phone. -/
lemma filter_otp_filter_ne (l : List Otp) (phone q : String) (h : q ≠ phone) :
    List.filter (fun o => o.phone == q)
      (List.filter (fun o => !(o.phone == phone)) l) =
    List.filter (fun o => o.phone == q) l := by
  rw [List.filter_filter]
  apply List.filter_congr
  intro x _
  by_cases hx : x.phone = q
  · subst hx
    simp [h]
  · simp [hx]

/-- A freshly inserted OTP is found by the (phone, code) lookup after the
delete-all-for-phone that precedes it. -/
lemma findOtp_filter_append_self (l : List Otp) (phone code : String) (e : Nat) :
    List.find? (fun o => o.phone == phone && o.code == code)
      ((l.filter fun o => !(o.phone == phone))
        ++ [{ phone := phone, code := code, expires_at := e }]) =
      some { phone := phone, code := code, expires_at := e } := by
  rw [List.find?_append, find?_otp_filter]
  simp

/-- A freshly appended user with the looked-up phone is found when no earlier
user has that phone. -/
lemma findUser_append_self (l : List User) (u : User) (phone : String)
    (h : l.find? (fun x => x.phone == phone) = none) (hu : u.phone = phone) :
    (l ++ [u]).find? (fun x => x.phone == phone) = some u := by
  rw [List.find?_append, h]
  simp [hu]

/-! ### Characterization lemmas: one equation per branch of each endpoint -/

lemma request_otp_invalid (st : Store) (name phone : String) (rand now : Nat)
    (h : validPhone phone = false) :
    request_otp st name phone rand now = (Except.error ApiError.invalidPhoneFormat, st) := by
  simp [request_otp, h]

lemma request_otp_known_user (st : Store) (name phone : String) (rand now : Nat) (u : User)
    (hphone : validPhone phone = true) (hu : findUserByPhone st phone = some u) :
    request_otp st name phone rand now =
      (Except.ok (pad6 (rand % 1000000)),
       { st with otps := (st.otps.filter fun o => !(o.phone == phone))
           ++ [{ phone := phone, code := pad6 (rand % 1000000), expires_at := now + 300 }] }) := by
  simp only [request_otp, hphone, if_true, hu]

lemma request_otp_new_user (st : Store) (name phone : String) (rand now : Nat)
    (hphone : validPhone phone = true) (hu : findUserByPhone st phone = none) :
    request_otp st name phone rand now =
      (Except.ok (pad6 (rand % 1000000)),
       { users := st.users ++ [{ id := st.nextId, name := name, email := none,
                                 phone := phone, role := "customer", is_active := true }],
         otps := (st.otps.filter fun o => !(o.phone == phone))
           ++ [{ phone := phone, code := pad6 (rand % 1000000), expires_at := now + 300 }],
         sessions := st.sessions,
         nextId := st.nextId + 1 }) := by
  simp only [request_otp, hphone, if_true, hu]

lemma verify_otp_invalid (st : Store) (phone code tok : String) (now : Nat)
    (h : validPhone phone = false) :
    verify_otp st phone code tok now = (Except.error ApiError.invalidPhoneFormat, st) := by
  simp [verify_otp, h]

lemma verify_otp_no_code (st : Store) (phone code tok : String) (now : Nat)
    (hphone : validPhone phone = true) (ho : findOtp st phone code = none) :
    verify_otp st phone code tok now = (Except.error ApiError.invalidOrExpiredCode, st) := by
  simp only [verify_otp, hphone, if_true, ho]

lemma verify_otp_expired (st : Store) (phone code tok : String) (now : Nat) (o : Otp)
    (hphone : validPhone phone = true) (ho : findOtp st phone code = some o)
    (hexp : o.expires_at < now) :
    verify_otp st phone code tok now = (Except.error ApiError.invalidOrExpiredCode, st) := by
  simp only [verify_otp, hphone, if_true, ho, hexp]

lemma verify_otp_no_user (st : Store) (phone code tok : String) (now : Nat) (o : Otp)
    (hphone : validPhone phone = true) (ho : findOtp st phone code = some o)
    (hexp : ¬ o.expires_at < now) (hu : findUserByPhone st phone = none) :
    verify_otp st phone code tok now = (Except.error ApiError.userNotFound, st) := by
  simp only [verify_otp, hphone, if_true, ho, hexp, if_false, hu]

lemma verify_otp_success (st : Store) (phone code tok : String) (now : Nat) (o : Otp) (u : User)
    (hphone : validPhone phone = true) (ho : findOtp st phone code = some o)
    (hexp : ¬ o.expires_at < now) (hu : findUserByPhone st phone = some u) :
    verify_otp st phone code tok now =
      (Except.ok (tok, u),
       { st with
         otps := st.otps.filter fun x => !(x.phone == phone),
         sessions := st.sessions ++ [{ user_id := u.id, token := tok, created_at := now }] }) := by
  simp only [verify_otp, hphone, if_true, ho, hexp, if_false, hu, mint]

lemma admin_login_bootstrap (st : Store) (email tok : String) (now : Nat)
    (h : findAdminByEmail st email = none) :
    admin_login st email "admin123" tok now =
      (Except.ok tok,
       { users := st.users ++ [{ id := st.nextId, name := "Admin", email := some email,
                                 phone := "+10000000000", role := "admin", is_active := true }],
         otps := st.otps,
         sessions := st.sessions ++ [{ user_id := st.nextId, token := tok, created_at := now }],
         nextId := st.nextId + 1 }) := by
  simp only [admin_login, h, mint]
  rfl

lemma admin_login_bootstrap_wrong (st : Store) (email password tok : String) (now : Nat)
    (h : findAdminByEmail st email = none) (hpw : password ≠ "admin123") :
    admin_login st email password tok now = (Except.error ApiError.invalidCredentials, st) := by
  simp only [admin_login, h]
  simp [hpw]

lemma admin_login_existing (st : Store) (email tok : String) (now : Nat) (admin : User)
    (h : findAdminByEmail st email = some admin) :
    admin_login st email "admin123" tok now = (Except.ok tok, mint st admin.id tok now) := by
  simp only [admin_login, h]
  rfl

lemma admin_login_existing_wrong (st : Store) (email password tok : String) (now : Nat)
    (admin : User) (h : findAdminByEmail st email = some admin) (hpw : password ≠ "admin123") :
    admin_login st email password tok now = (Except.error ApiError.invalidCredentials, st) := by
  simp only [admin_login, h]
  simp [hpw]

/-- A fresh OTP whose code differs is not found by the (phone, code) lookup. -/
lemma findOtp_filter_append_other (l : List Otp) (phone c c2 : String) (e : Nat)
    (h : c ≠ c2) :
    List.find? (fun o => o.phone == phone && o.code == c)
      ((l.filter fun o => !(o.phone == phone))
        ++ [{ phone := phone, code := c2, expires_at := e }]) = none := by
  rw [List.find?_append, find?_otp_filter]
  simp [Ne.symm h]

/-- What a valid-phone `request_otp` returns and does to the store: the demo
code, exactly one OTP document for the phone (replacing all others), and a
user now findable by the phone. -/
lemma request_otp_post (st : Store) (name phone : String) (rand now : Nat)
    (hphone : validPhone phone = true) :
    (request_otp st name phone rand now).1 = Except.ok (pad6 (rand % 1000000))
    ∧ (request_otp st name phone rand now).2.otps
        = (st.otps.filter fun o => !(o.phone == phone))
          ++ [{ phone := phone, code := pad6 (rand % 1000000), expires_at := now + 300 }]
    ∧ (request_otp st name phone rand now).2.sessions = st.sessions
    ∧ ∃ u : User, findUserByPhone (request_otp st name phone rand now).2 phone = some u := by
  cases hu : findUserByPhone st phone with
  | some u =>
    rw [request_otp_known_user st name phone rand now u hphone hu]
    exact ⟨rfl, rfl, rfl, u, hu⟩
  | none =>
    rw [request_otp_new_user st name phone rand now hphone hu]
    exact ⟨rfl, rfl, rfl, _, findUser_append_self st.users _ phone hu rfl⟩

/-- `verify_otp` either succeeds, minting one session and deleting the OTP
documents of the phone, or fails returning the store untouched. -/
lemma verify_otp_shape (st : Store) (phone code tok : String) (now : Nat) :
    (∃ u, verify_otp st phone code tok now =
      (Except.ok (tok, u),
       { st with
         otps := st.otps.filter fun x => !(x.phone == phone),
         sessions := st.sessions ++ [{ user_id := u.id, token := tok, created_at := now }] }))
    ∨ (∃ e, verify_otp st phone code tok now = (Except.error e, st)) := by
  by_cases hphone : validPhone phone = true
  · cases ho : findOtp st phone code with
    | none => exact Or.inr ⟨_, verify_otp_no_code st phone code tok now hphone ho⟩
    | some o =>
      by_cases hexp : o.expires_at < now
      · exact Or.inr ⟨_, verify_otp_expired st phone code tok now o hphone ho hexp⟩
      · cases hu : findUserByPhone st phone with
        | none => exact Or.inr ⟨_, verify_otp_no_user st phone code tok now o hphone ho hexp hu⟩
        | some u => exact Or.inl ⟨u, verify_otp_success st phone code tok now o u hphone ho hexp hu⟩
  · exact Or.inr ⟨_, verify_otp_invalid st phone code tok now (by simpa using hphone)⟩

/-- `admin_login` never touches the OTP collection. -/
lemma admin_login_otps (st : Store) (email password tok : String) (now : Nat) :
    ((admin_login st email password tok now).2).otps = st.otps := by
  cases h : findAdminByEmail st email with
  | none =>
    by_cases hpw : password = "admin123"
    · subst hpw
      rw [admin_login_bootstrap st email tok now h]
    · rw [admin_login_bootstrap_wrong st email password tok now h hpw]
  | some admin =>
    by_cases hpw : password = "admin123"
    · subst hpw
      rw [admin_login_existing st email tok now admin h]
      rfl
    · rw [admin_login_existing_wrong st email password tok now admin h hpw]

/-- After the delete-all-for-phone cleanup, no OTP documents for the phone
remain. -/
lemma otpCount_cleanup (st : Store) (phone : String) :
    otpCount { st with otps := st.otps.filter fun x => !(x.phone == phone) } phone = 0 := by
  show (List.filter (fun o => o.phone == phone)
      (List.filter (fun x => !(x.phone == phone)) st.otps)).length = 0
  rw [filter_otp_filter]
  rfl

/-- OTP documents per phone after a delete-all-for-`phone` followed by one
insertion for `phone`: one for `phone` itself, unchanged for any other. -/
lemma otpCount_issue (l : List Otp) (phone q c : String) (e : Nat) :
    (List.filter (fun o => o.phone == q)
      ((l.filter fun o => !(o.phone == phone))
        ++ [{ phone := phone, code := c, expires_at := e }])).length
    = if q = phone then 1 else (List.filter (fun o => o.phone == q) l).length := by
  rw [List.filter_append]
  by_cases h : q = phone
  · subst h
    rw [filter_otp_filter]
    simp
  · rw [filter_otp_filter_ne l phone q h]
    simp [Ne.symm h, h]

/-! ### Claims -/

/-- C9: for every phone string that does not match the pattern optional
leading '+' followed by 10-14 digits (e.g. "12345"), both `request_otp` and
`verify_otp` fail with `InvalidPhoneFormat` and leave the store completely
unchanged. -/
theorem invalid_phone_rejected_everywhere (phone : String)
    (h : validPhone phone = false) :
    (∀ st name rand now,
        request_otp st name phone rand now = (Except.error ApiError.invalidPhoneFormat, st))
    ∧ (∀ st code tok now,
        verify_otp st phone code tok now = (Except.error ApiError.invalidPhoneFormat, st)) := by
  constructor <;> intros <;> simp [request_otp, verify_otp, h]

/-- C9 witness: the concrete phone "12345" fails the format check and both
endpoints reject it on the empty store, leaving it unchanged. -/
theorem invalid_phone_rejected_everywhere_witness :
    validPhone "12345" = false
    ∧ request_otp Store.empty "Ada" "12345" 7 0
        = (Except.error ApiError.invalidPhoneFormat, Store.empty)
    ∧ verify_otp Store.empty "12345" "000007" "t" 0
        = (Except.error ApiError.invalidPhoneFormat, Store.empty) :=
  ⟨by decide,
   (invalid_phone_rejected_everywhere "12345" (by decide)).1 Store.empty "Ada" 7 0,
   (invalid_phone_rejected_everywhere "12345" (by decide)).2 Store.empty "000007" "t" 0⟩

/-- C1: for every phone matching the valid format, `request_otp` followed
immediately by `verify_otp` with that phone and the returned demo code
succeeds (returning the minted token and the user), and a second
`verify_otp` immediately afterwards with the same phone and code fails with
`InvalidOrExpiredCode`. -/
theorem issue_then_verify_succeeds_exactly_once
    (st : Store) (name phone : String) (rand : Nat) (tok : String) (now : Nat)
    (hphone : validPhone phone = true) :
    (request_otp st name phone rand now).1 = Except.ok (pad6 (rand % 1000000))
    ∧ (∃ u, (verify_otp (request_otp st name phone rand now).2
               phone (pad6 (rand % 1000000)) tok now).1 = Except.ok (tok, u))
    ∧ ∀ tok2, (verify_otp (verify_otp (request_otp st name phone rand now).2
                   phone (pad6 (rand % 1000000)) tok now).2
                 phone (pad6 (rand % 1000000)) tok2 now).1
        = Except.error ApiError.invalidOrExpiredCode := by
  obtain ⟨h1, hotps, -, u, huI⟩ := request_otp_post st name phone rand now hphone
  set c := pad6 (rand % 1000000) with hc
  set stI := (request_otp st name phone rand now).2 with hstI
  have ho : findOtp stI phone c = some { phone := phone, code := c, expires_at := now + 300 } := by
    show stI.otps.find? _ = _
    rw [hotps]
    exact findOtp_filter_append_self st.otps phone c (now + 300)
  have hver := verify_otp_success stI phone c tok now _ u hphone ho
    (by show ¬ now + 300 < now; omega) huI
  refine ⟨h1, ⟨u, by rw [hver]⟩, ?_⟩
  intro tok2
  have hverII := verify_otp_no_code
    { stI with otps := stI.otps.filter fun x => !(x.phone == phone),
               sessions := stI.sessions ++ [{ user_id := u.id, token := tok, created_at := now }] }
    phone c tok2 now hphone (find?_otp_filter stI.otps phone c)
  rw [hver, hverII]

/-- C1 witness: issuing for Ada's phone on the empty store returns code
"042917" (draw 42917); verifying it immediately succeeds and a second verify
fails with `InvalidOrExpiredCode`. -/
theorem issue_then_verify_succeeds_exactly_once_witness :
    (request_otp Store.empty "Ada" "+12025550123" 42917 100).1
        = Except.ok (pad6 (42917 % 1000000))
    ∧ (∃ u, (verify_otp (request_otp Store.empty "Ada" "+12025550123" 42917 100).2
               "+12025550123" (pad6 (42917 % 1000000)) "tokT" 100).1 = Except.ok ("tokT", u))
    ∧ (verify_otp (verify_otp (request_otp Store.empty "Ada" "+12025550123" 42917 100).2
           "+12025550123" (pad6 (42917 % 1000000)) "tokT" 100).2
         "+12025550123" (pad6 (42917 % 1000000)) "tokU" 100).1
        = Except.error ApiError.invalidOrExpiredCode := by
  have h := issue_then_verify_succeeds_exactly_once Store.empty "Ada" "+12025550123" 42917
    "tokT" 100 (by decide)
  exact ⟨h.1, h.2.1, h.2.2 "tokU"⟩

/-- A store holding one customer ("Ada") and one OTP for her phone whose
expiry timestamp is 1000. -/
def expiryBoundaryStore : Store :=
  { users := [{ id := 0, name := "Ada", email := none, phone := "+12025550123",
                role := "customer", is_active := true }],
    otps := [{ phone := "+12025550123", code := "042917", expires_at := 1000 }],
    sessions := [],
    nextId := 1 }

/-- C3 counterexample: at the exact expiry instant (`now` equal to the stored
`expires_at`, i.e. clock = issued-at + 5 minutes, so "clock ≥ expiry" holds)
`verify_otp` with the matching code SUCCEEDS instead of failing with
`InvalidOrExpiredCode`: the source's expiry comparison `expires_at < now` is
strict. -/
theorem verify_at_exact_expiry_succeeds :
    findOtp expiryBoundaryStore "+12025550123" "042917"
        = some { phone := "+12025550123", code := "042917", expires_at := 1000 }
    ∧ (verify_otp expiryBoundaryStore "+12025550123" "042917" "tokT" 1000).1
        = Except.ok ("tokT",
            { id := 0, name := "Ada", email := none, phone := "+12025550123",
              role := "customer", is_active := true }) :=
  ⟨rfl, rfl⟩

/-- C3 (amended): for every valid phone whose stored OneTimeCode matches the
submitted code string, if the current time is strictly after the stored
expiry (`expires_at < now`), `verify_otp` fails with `InvalidOrExpiredCode`
even though the code string matches, and leaves the store unchanged. -/
theorem verify_after_expiry_fails
    (st : Store) (phone code tok : String) (now : Nat) (o : Otp)
    (hphone : validPhone phone = true)
    (ho : findOtp st phone code = some o)
    (hexp : o.expires_at < now) :
    verify_otp st phone code tok now = (Except.error ApiError.invalidOrExpiredCode, st) :=
  verify_otp_expired st phone code tok now o hphone ho hexp

/-- C3 amended-claim witness: one tick past the stored expiry, the matching
code is rejected. -/
theorem verify_after_expiry_fails_witness :
    verify_otp expiryBoundaryStore "+12025550123" "042917" "tokT" 1001
      = (Except.error ApiError.invalidOrExpiredCode, expiryBoundaryStore) :=
  verify_after_expiry_fails expiryBoundaryStore "+12025550123" "042917" "tokT" 1001
    { phone := "+12025550123", code := "042917", expires_at := 1000 }
    (by decide) rfl (by decide)

/-- A store holding one customer ("Bob") and one live OTP ("111111") for his
phone. -/
def staleCodeStore : Store :=
  { users := [{ id := 0, name := "Bob", email := none, phone := "+12025550199",
                role := "customer", is_active := true }],
    otps := [{ phone := "+12025550199", code := "111111", expires_at := 1000 }],
    sessions := [],
    nextId := 1 }

/-- C4 counterexample: a `verify_otp` call that fails (wrong code submitted
while a live code is stored) leaves the OneTimeCode record for the phone in
the store — cleanup does not happen on the failure path. -/
theorem failed_verify_leaves_code_behind :
    verify_otp staleCodeStore "+12025550199" "222222" "tokT" 0
        = (Except.error ApiError.invalidOrExpiredCode, staleCodeStore)
    ∧ otpCount staleCodeStore "+12025550199" = 1 :=
  ⟨rfl, rfl⟩

/-- C4 (amended): after a SUCCESSFUL `verify_otp` no OneTimeCode records for
the phone remain in the store; after a failing `verify_otp` (including
`InvalidOrExpiredCode` and `UserNotFound`) the store — and so every
OneTimeCode record — is left exactly as it was. -/
theorem verify_cleanup_on_success_only
    (st : Store) (phone code tok : String) (now : Nat) :
    (∀ res st2, verify_otp st phone code tok now = (Except.ok res, st2) →
        otpCount st2 phone = 0)
    ∧ (∀ e st2, verify_otp st phone code tok now = (Except.error e, st2) → st2 = st) := by
  rcases verify_otp_shape st phone code tok now with ⟨u, hs⟩ | ⟨e, hs⟩
  · constructor
    · intro res st2 h
      rw [hs] at h
      injection h with h1 h2
      rw [← h2]
      exact otpCount_cleanup
        { st with sessions := st.sessions ++ [{ user_id := u.id, token := tok, created_at := now }] }
        phone
    · intro e2 st2 h
      rw [hs] at h
      injection h with h1 h2
      exact absurd h1 (by simp)
  · constructor
    · intro res st2 h
      rw [hs] at h
      injection h with h1 h2
      exact absurd h1 (by simp)
    · intro e2 st2 h
      rw [hs] at h
      injection h with h1 h2
      rw [← h2]

/-- C4 amended-claim witness: a successful verify leaves zero codes for the
phone; the failing verify of the counterexample store returns it unchanged. -/
theorem verify_cleanup_on_success_only_witness :
    otpCount (verify_otp staleCodeStore "+12025550199" "111111" "tokT" 0).2 "+12025550199" = 0
    ∧ (verify_otp staleCodeStore "+12025550199" "222222" "tokT" 0).2 = staleCodeStore :=
  ⟨(verify_cleanup_on_success_only staleCodeStore "+12025550199" "111111" "tokT" 0).1
      _ _ rfl,
   (verify_cleanup_on_success_only staleCodeStore "+12025550199" "222222" "tokT" 0).2
      ApiError.invalidOrExpiredCode _ rfl⟩

/-- C8: for every valid phone, after `request_otp` is issued twice in
succession (with distinct generated codes), verifying the code returned by
the FIRST issue fails with `InvalidOrExpiredCode`: the second issuance
deleted the first code. -/
theorem second_issue_invalidates_first_code
    (st : Store) (name1 name2 phone tok : String) (r1 r2 now1 now2 now3 : Nat)
    (hphone : validPhone phone = true)
    (hcode : pad6 (r1 % 1000000) ≠ pad6 (r2 % 1000000)) :
    (verify_otp (request_otp (request_otp st name1 phone r1 now1).2 name2 phone r2 now2).2
        phone (pad6 (r1 % 1000000)) tok now3).1
      = Except.error ApiError.invalidOrExpiredCode := by
  obtain ⟨-, hot2, -, -⟩ :=
    request_otp_post (request_otp st name1 phone r1 now1).2 name2 phone r2 now2 hphone
  have hnone : findOtp (request_otp (request_otp st name1 phone r1 now1).2 name2 phone r2 now2).2
      phone (pad6 (r1 % 1000000)) = none := by
    show List.find? _ _ = none
    rw [hot2]
    exact findOtp_filter_append_other _ phone _ _ _ hcode
  rw [verify_otp_no_code _ phone _ tok now3 hphone hnone]

/-- C8 witness: draws 1 and 2 give codes "000001" and "000002"; after the two
issues for Ada's phone, verifying "000001" fails. -/
theorem second_issue_invalidates_first_code_witness :
    (verify_otp (request_otp (request_otp Store.empty "Ada" "+12025550123" 1 10).2
          "Ada" "+12025550123" 2 20).2
        "+12025550123" (pad6 (1 % 1000000)) "tokT" 30).1
      = Except.error ApiError.invalidOrExpiredCode :=
  second_issue_invalidates_first_code Store.empty "Ada" "Ada" "+12025550123" "tokT"
    1 2 10 20 30 (by decide) (by decide)

/-- C2: `require_admin` fails with the missing-token error (status 401) when
the bearer token is absent or empty, with the invalid-token error (status
401) when no session record matches it, with `Forbidden` (status 403) when
the session resolves but the referenced user does not exist or its role is
not "admin", and returns the user's id when the session resolves to an
existing user whose role is "admin". -/
theorem require_admin_gate (st : Store) :
    (require_admin st none = Except.error ApiError.missingToken
      ∧ require_admin st (some "") = Except.error ApiError.missingToken
      ∧ statusOf ApiError.missingToken = 401)
    ∧ (∀ tok, tok ≠ "" → findSessionByToken st tok = none →
        require_admin st (some tok) = Except.error ApiError.invalidToken
        ∧ statusOf ApiError.invalidToken = 401)
    ∧ (∀ tok s, tok ≠ "" → findSessionByToken st tok = some s →
        (findUserById st s.user_id = none →
          require_admin st (some tok) = Except.error ApiError.forbidden)
        ∧ (∀ u, findUserById st s.user_id = some u → u.role ≠ "admin" →
          require_admin st (some tok) = Except.error ApiError.forbidden)
        ∧ (∀ u, findUserById st s.user_id = some u → u.role = "admin" →
          require_admin st (some tok) = Except.ok u.id)
        ∧ statusOf ApiError.forbidden = 403) := by
  refine ⟨⟨rfl, rfl, rfl⟩, ?_, ?_⟩
  · intro tok htok hsess
    exact ⟨by simp [require_admin, htok, hsess], rfl⟩
  · intro tok s htok hsess
    refine ⟨?_, ?_, ?_, rfl⟩
    · intro huser
      simp [require_admin, htok, hsess, huser]
    · intro u huser hrole
      simp [require_admin, htok, hsess, huser, hrole]
    · intro u huser hrole
      simp [require_admin, htok, hsess, huser, hrole]

/-- The store after bootstrapping an admin on the empty store. -/
def bootstrappedStore : Store :=
  (admin_login Store.empty "a@x.com" "admin123" "tokA" 5).2

/-- C2 witness: on the bootstrapped store, an absent token, the unknown token
"zz", and the admin's own token "tokA" give the three outcomes, and the
status codes are 401/401/403. -/
theorem require_admin_gate_witness :
    require_admin bootstrappedStore none = Except.error ApiError.missingToken
    ∧ require_admin bootstrappedStore (some "zz") = Except.error ApiError.invalidToken
    ∧ require_admin bootstrappedStore (some "tokA") = Except.ok 0 := by
  refine ⟨(require_admin_gate bootstrappedStore).1.1, ?_, ?_⟩
  · exact ((require_admin_gate bootstrappedStore).2.1 "zz" (by decide) rfl).1
  · exact ((require_admin_gate bootstrappedStore).2.2 "tokA"
      { user_id := 0, token := "tokA", created_at := 5 } (by decide) rfl).2.2.1
      { id := 0, name := "Admin", email := some "a@x.com", phone := "+10000000000",
        role := "admin", is_active := true } rfl rfl

/-- C5: when no admin user with the given email exists, password "admin123"
creates a new admin user (name "Admin", the supplied email, the placeholder
phone "+10000000000", role "admin", active) plus a session for it and returns
the fresh token, while any other password fails with `InvalidCredentials`
leaving the store unchanged; when such an admin already exists, "admin123"
returns a fresh token (minting a session for that admin) and any other
password fails with `InvalidCredentials`. -/
theorem admin_login_bootstrap_and_constant_check
    (st : Store) (email password tok : String) (now : Nat) :
    (findAdminByEmail st email = none →
      admin_login st email "admin123" tok now =
        (Except.ok tok,
         { users := st.users ++ [{ id := st.nextId, name := "Admin", email := some email,
                                   phone := "+10000000000", role := "admin", is_active := true }],
           otps := st.otps,
           sessions := st.sessions ++ [{ user_id := st.nextId, token := tok, created_at := now }],
           nextId := st.nextId + 1 })
      ∧ (password ≠ "admin123" →
          admin_login st email password tok now = (Except.error ApiError.invalidCredentials, st)))
    ∧ (∀ admin, findAdminByEmail st email = some admin →
        admin_login st email "admin123" tok now = (Except.ok tok, mint st admin.id tok now)
        ∧ (password ≠ "admin123" →
            admin_login st email password tok now = (Except.error ApiError.invalidCredentials, st))) := by
  constructor
  · intro h
    exact ⟨admin_login_bootstrap st email tok now h,
           fun hpw => admin_login_bootstrap_wrong st email password tok now h hpw⟩
  · intro admin h
    exact ⟨admin_login_existing st email tok now admin h,
           fun hpw => admin_login_existing_wrong st email password tok now admin h hpw⟩

/-- C5 witness: on the empty store "admin123" bootstraps the admin and
returns the token, "wrong" fails; on the bootstrapped store "admin123" mints
a session and "wrong" fails. -/
theorem admin_login_bootstrap_and_constant_check_witness :
    admin_login Store.empty "a@x.com" "admin123" "tokA" 5 =
      (Except.ok "tokA",
       { users := [{ id := 0, name := "Admin", email := some "a@x.com",
                     phone := "+10000000000", role := "admin", is_active := true }],
         otps := [],
         sessions := [{ user_id := 0, token := "tokA", created_at := 5 }],
         nextId := 1 })
    ∧ admin_login Store.empty "a@x.com" "wrong" "tokA" 5
        = (Except.error ApiError.invalidCredentials, Store.empty)
    ∧ admin_login bootstrappedStore "a@x.com" "admin123" "tokB" 6
        = (Except.ok "tokB", mint bootstrappedStore 0 "tokB" 6)
    ∧ admin_login bootstrappedStore "a@x.com" "wrong" "tokB" 6
        = (Except.error ApiError.invalidCredentials, bootstrappedStore) := by
  refine ⟨?_, ?_, ?_, ?_⟩
  · exact ((admin_login_bootstrap_and_constant_check Store.empty "a@x.com" "wrong" "tokA" 5).1
      rfl).1
  · exact ((admin_login_bootstrap_and_constant_check Store.empty "a@x.com" "wrong" "tokA" 5).1
      rfl).2 (by decide)
  · exact ((admin_login_bootstrap_and_constant_check bootstrappedStore "a@x.com" "wrong" "tokB" 6).2
      { id := 0, name := "Admin", email := some "a@x.com", phone := "+10000000000",
        role := "admin", is_active := true } rfl).1
  · exact ((admin_login_bootstrap_and_constant_check bootstrappedStore "a@x.com" "wrong" "tokB" 6).2
      { id := 0, name := "Admin", email := some "a@x.com", phone := "+10000000000",
        role := "admin", is_active := true } rfl).2 (by decide)

/-- C6: resolving the token minted by `mint` for a user id (fresh, nonempty
tokens, as produced by `secrets.token_urlsafe`) yields that same user id; a
nonempty token held by no session fails with `InvalidToken`; an absent or
empty token fails with `MissingToken`. -/
theorem token_round_trip :
    (∀ st uid tok now, tok ≠ "" → findSessionByToken st tok = none →
        resolve (mint st uid tok now) (some tok) = Except.ok uid)
    ∧ (∀ st tok, tok ≠ "" → findSessionByToken st tok = none →
        resolve st (some tok) = Except.error ApiError.invalidToken)
    ∧ (∀ st, resolve st none = Except.error ApiError.missingToken
        ∧ resolve st (some "") = Except.error ApiError.missingToken) := by
  refine ⟨?_, ?_, fun st => ⟨rfl, rfl⟩⟩
  · intro st uid tok now htok hfresh
    simp only [findSessionByToken] at hfresh
    simp [resolve, mint, findSessionByToken, List.find?_append, hfresh, htok]
  · intro st tok htok hfresh
    simp [resolve, htok, hfresh]

/-- C6 witness: on the bootstrapped store, minting "tokB" for user 7 then
resolving "tokB" returns 7; resolving the unheld "zz" fails with
`InvalidToken`; absent and empty tokens fail with `MissingToken`. -/
theorem token_round_trip_witness :
    resolve (mint bootstrappedStore 7 "tokB" 6) (some "tokB") = Except.ok 7
    ∧ resolve bootstrappedStore (some "zz") = Except.error ApiError.invalidToken
    ∧ resolve bootstrappedStore none = Except.error ApiError.missingToken
    ∧ resolve bootstrappedStore (some "") = Except.error ApiError.missingToken :=
  ⟨token_round_trip.1 bootstrappedStore 7 "tokB" 6 (by decide) rfl,
   token_round_trip.2.1 bootstrappedStore "zz" (by decide) rfl,
   (token_round_trip.2.2 bootstrappedStore).1,
   (token_round_trip.2.2 bootstrappedStore).2⟩

/-- C7: the bootstrap admin's placeholder phone "+10000000000" passes the
phone-format check, so in a state where the phone lookup resolves to a
bootstrapped admin (and the store is id-consistent for it), `request_otp`
with that phone creates no new user and stores a code for it, `verify_otp`
of that code succeeds returning the admin, and the minted (fresh, nonempty)
token is accepted by `require_admin`, which returns the admin's id: the
customer OTP flow yields an admin-privileged token. -/
theorem bootstrap_admin_phone_passes_otp_flow
    (st : Store) (name : String) (rand : Nat) (tok : String) (now : Nat) (adm : User)
    (hadm : findUserByPhone st "+10000000000" = some adm)
    (hrole : adm.role = "admin")
    (hid : findUserById st adm.id = some adm)
    (htok : tok ≠ "")
    (hfresh : findSessionByToken st tok = none) :
    validPhone "+10000000000" = true
    ∧ (request_otp st name "+10000000000" rand now).2.users = st.users
    ∧ (request_otp st name "+10000000000" rand now).2.otps
        = (st.otps.filter fun o => !(o.phone == "+10000000000"))
          ++ [{ phone := "+10000000000", code := pad6 (rand % 1000000), expires_at := now + 300 }]
    ∧ (verify_otp (request_otp st name "+10000000000" rand now).2 "+10000000000"
         (pad6 (rand % 1000000)) tok now).1 = Except.ok (tok, adm)
    ∧ require_admin (verify_otp (request_otp st name "+10000000000" rand now).2 "+10000000000"
         (pad6 (rand % 1000000)) tok now).2 (some tok) = Except.ok adm.id := by
  have hval : validPhone "+10000000000" = true := by decide
  have hreq := request_otp_known_user st name "+10000000000" rand now adm hval hadm
  have h2 : (request_otp st name "+10000000000" rand now).2 =
      { st with otps := (st.otps.filter fun o => !(o.phone == "+10000000000"))
          ++ [{ phone := "+10000000000", code := pad6 (rand % 1000000),
                expires_at := now + 300 }] } := by
    rw [hreq]
  have ho : findOtp (request_otp st name "+10000000000" rand now).2 "+10000000000"
      (pad6 (rand % 1000000))
      = some { phone := "+10000000000", code := pad6 (rand % 1000000),
               expires_at := now + 300 } := by
    rw [h2]
    exact findOtp_filter_append_self st.otps "+10000000000" _ (now + 300)
  have huI : findUserByPhone (request_otp st name "+10000000000" rand now).2 "+10000000000"
      = some adm := by
    rw [h2]
    exact hadm
  have hver := verify_otp_success (request_otp st name "+10000000000" rand now).2
    "+10000000000" (pad6 (rand % 1000000)) tok now _ adm hval ho
    (by show ¬ now + 300 < now; omega) huI
  refine ⟨hval, by rw [h2], by rw [h2], by rw [hver], ?_⟩
  have h3 : (verify_otp (request_otp st name "+10000000000" rand now).2 "+10000000000"
      (pad6 (rand % 1000000)) tok now).2.sessions
      = st.sessions ++ [{ user_id := adm.id, token := tok, created_at := now }] := by
    rw [hver, h2]
  have h4 : (verify_otp (request_otp st name "+10000000000" rand now).2 "+10000000000"
      (pad6 (rand % 1000000)) tok now).2.users = st.users := by
    rw [hver, h2]
  have hsess : findSessionByToken (verify_otp (request_otp st name "+10000000000" rand now).2
      "+10000000000" (pad6 (rand % 1000000)) tok now).2 tok
      = some { user_id := adm.id, token := tok, created_at := now } := by
    unfold findSessionByToken
    rw [h3, List.find?_append]
    unfold findSessionByToken at hfresh
    rw [hfresh]
    simp
  have huid : findUserById (verify_otp (request_otp st name "+10000000000" rand now).2
      "+10000000000" (pad6 (rand % 1000000)) tok now).2 adm.id = some adm := by
    unfold findUserById
    rw [h4]
    exact hid
  simp [require_admin, htok, hsess, huid, hrole]

/-- C7 witness: on the store obtained by bootstrapping the admin, running the
OTP flow on the placeholder phone (draw 42917, fresh token "tokB") yields a
token that `require_admin` accepts, returning the admin's id 0. -/
theorem bootstrap_admin_phone_passes_otp_flow_witness :
    validPhone "+10000000000" = true
    ∧ (request_otp bootstrappedStore "Eve" "+10000000000" 42917 100).2.users
        = bootstrappedStore.users
    ∧ (verify_otp (request_otp bootstrappedStore "Eve" "+10000000000" 42917 100).2
         "+10000000000" (pad6 (42917 % 1000000)) "tokB" 100).1
        = Except.ok ("tokB",
            { id := 0, name := "Admin", email := some "a@x.com", phone := "+10000000000",
              role := "admin", is_active := true })
    ∧ require_admin (verify_otp (request_otp bootstrappedStore "Eve" "+10000000000" 42917 100).2
         "+10000000000" (pad6 (42917 % 1000000)) "tokB" 100).2 (some "tokB")
        = Except.ok 0 := by
  have h := bootstrap_admin_phone_passes_otp_flow bootstrappedStore "Eve" 42917 "tokB" 100
    { id := 0, name := "Admin", email := some "a@x.com", phone := "+10000000000",
      role := "admin", is_active := true }
    rfl rfl rfl (by decide) rfl
  exact ⟨h.1, h.2.1, h.2.2.2.1, h.2.2.2.2⟩

/-- Codes for a phone are not increased by the phone's cleanup filter. -/
lemma otpCount_filter_le (l : List Otp) (phone q : String) :
    (List.filter (fun o => o.phone == q)
        (List.filter (fun x => !(x.phone == phone)) l)).length
      ≤ (List.filter (fun o => o.phone == q) l).length :=
  List.Sublist.length_le (List.Sublist.filter _ (List.filter_sublist l))

/-- Every single auth operation preserves the at-most-one-code invariant. -/
lemma step_preserves_atMostOneCode (st st2 : Store)
    (h : atMostOneCode st) (hstep : Step st st2) : atMostOneCode st2 := by
  cases hstep with
  | issue name phone rand now =>
    by_cases hphone : validPhone phone = true
    · obtain ⟨-, hotps, -, -⟩ := request_otp_post st name phone rand now hphone
      intro q
      unfold otpCount
      rw [hotps, otpCount_issue]
      by_cases hq : q = phone
      · simp [hq]
      · simp only [hq, if_false]
        exact h q
    · rw [request_otp_invalid st name phone rand now (by simpa using hphone)]
      exact h
  | verify phone code tok now =>
    rcases verify_otp_shape st phone code tok now with ⟨u, hs⟩ | ⟨e, hs⟩
    · intro q
      unfold otpCount
      rw [hs]
      by_cases hq : q = phone
      · subst hq
        rw [show ({ st with
            otps := st.otps.filter fun x => !(x.phone == q),
            sessions := st.sessions ++ [{ user_id := u.id, token := tok,
                                          created_at := now }] } : Store).otps
          = st.otps.filter fun x => !(x.phone == q) from rfl]
        rw [filter_otp_filter]
        exact Nat.zero_le 1
      · exact le_trans (otpCount_filter_le st.otps phone q) (h q)
    · rw [hs]
      exact h
  | adminLogin email password tok now =>
    intro q
    unfold otpCount
    rw [admin_login_otps]
    exact h q

/-- C10: in every store reachable by the auth operations (`request_otp`,
`verify_otp`, `admin_login`; `require_admin` is read-only and returns no
store) from a store satisfying it, each phone has at most one OneTimeCode
record; in particular a successful `request_otp` ends with exactly one record
for its phone and a successful `verify_otp` ends with zero. -/
theorem at_most_one_code_per_phone_invariant :
    (∀ st st2, atMostOneCode st → Reachable st st2 → atMostOneCode st2)
    ∧ (∀ st name phone rand now code st2,
        request_otp st name phone rand now = (Except.ok code, st2) →
        otpCount st2 phone = 1)
    ∧ (∀ st phone code tok now res st2,
        verify_otp st phone code tok now = (Except.ok res, st2) →
        otpCount st2 phone = 0) := by
  refine ⟨?_, ?_, ?_⟩
  · intro st st2 h hr
    induction hr with
    | refl => exact h
    | tail hsteps hstep ih => exact step_preserves_atMostOneCode _ _ ih hstep
  · intro st name phone rand now code st2 heq
    by_cases hphone : validPhone phone = true
    · obtain ⟨-, hotps, -, -⟩ := request_otp_post st name phone rand now hphone
      have hst2 : (request_otp st name phone rand now).2 = st2 := congrArg Prod.snd heq
      unfold otpCount
      rw [← hst2, hotps, otpCount_issue]
      simp
    · rw [request_otp_invalid st name phone rand now (by simpa using hphone)] at heq
      injection heq with h1 h2
      exact absurd h1 (by simp)
  · intro st phone code tok now res st2 heq
    rcases verify_otp_shape st phone code tok now with ⟨u, hs⟩ | ⟨e, hs⟩
    · rw [hs] at heq
      injection heq with h1 h2
      rw [← h2]
      exact otpCount_cleanup
        { st with sessions := st.sessions ++ [{ user_id := u.id, token := tok,
                                                created_at := now }] } phone
    · rw [hs] at heq
      injection heq with h1 h2
      exact absurd h1 (by simp)

/-- C10 witness: the empty store satisfies the invariant; so does the store
after an issue (which holds exactly one code for the phone), and a successful
verify ends with zero codes for the phone. -/
theorem at_most_one_code_per_phone_invariant_witness :
    atMostOneCode (request_otp Store.empty "Ada" "+12025550123" 7 0).2
    ∧ otpCount (request_otp Store.empty "Ada" "+12025550123" 7 0).2 "+12025550123" = 1
    ∧ otpCount (verify_otp (request_otp Store.empty "Ada" "+12025550123" 7 0).2
        "+12025550123" (pad6 (7 % 1000000)) "tokT" 0).2 "+12025550123" = 0 :=
  ⟨at_most_one_code_per_phone_invariant.1 Store.empty
      (request_otp Store.empty "Ada" "+12025550123" 7 0).2
      (fun _ => Nat.zero_le 1)
      (Relation.ReflTransGen.single (Step.issue Store.empty "Ada" "+12025550123" 7 0)),
   at_most_one_code_per_phone_invariant.2.1 Store.empty "Ada" "+12025550123" 7 0
      (pad6 (7 % 1000000)) (request_otp Store.empty "Ada" "+12025550123" 7 0).2 rfl,
   at_most_one_code_per_phone_invariant.2.2
      (request_otp Store.empty "Ada" "+12025550123" 7 0).2 "+12025550123"
      (pad6 (7 % 1000000)) "tokT" 0
      ("tokT", { id := 0, name := "Ada", email := none, phone := "+12025550123",
                 role := "customer", is_active := true })
      (verify_otp (request_otp Store.empty "Ada" "+12025550123" 7 0).2
        "+12025550123" (pad6 (7 % 1000000)) "tokT" 0).2 rfl⟩

end PrintZest
